import Mathlib

/-!
Shallow embedding of the replay-fee-oracle cost-estimation engine
(`src/types.ts`, `src/calculators/*.ts`, `src/oracle.ts`,
`src/calculators/cost-calculator.ts`, `src/client/replay-labs.ts`).

Conventions of the embedding:
* JavaScript numbers are modelled as exact rationals (`ℚ`); every claim
  checked here is an exact-arithmetic statement.
* `Math.sqrt` (used only by the heuristic slippage estimator) is an external
  numeric primitive; it is threaded through as an explicit function
  parameter `sq : ℚ → ℚ`.
* JavaScript string interpolation of numbers (`toFixed`) is abstracted by
  `toString`; the constant assumption strings the claims refer to are
  reproduced verbatim.
* `Array.prototype.sort` with a price comparator is modelled by the stable
  `List.insertionSort`.
* Fallible operations (`throw`) are modelled with `Except`; the external
  orderbook fetch is passed in as an `Except String OrderbookSnapshot`.
-/

namespace ReplayOracle

/-- Supported venues, from `src/types.ts` (`type Venue`). -/
inductive Venue where
  | KALSHI
  | POLYMARKET
deriving DecidableEq, Repr

/-- Order aggressiveness, from `src/types.ts` (`type OrderType`). -/
inductive OrderType where
  | MARKET
  | LIMIT
deriving DecidableEq, Repr

/-- Estimate confidence, from `src/types.ts` (`type Confidence`). -/
inductive Confidence where
  | high
  | medium
  | low
deriving DecidableEq, Repr

/-- Trade side, from `src/oracle.ts` (`side?: 'BUY' | 'SELL'`). -/
inductive Side where
  | BUY
  | SELL
deriving DecidableEq, Repr

/-- Cost estimation mode, from `src/types.ts` (`type CostEstimateMode`). -/
inductive CostEstimateMode where
  | PUBLIC_SCHEDULE
  | LIVE_ORDERBOOK
  | ACCOUNT_SPECIFIC
deriving DecidableEq, Repr

/-- Venue name as rendered into error/assumption strings. -/
def venueName : Venue → String
  | .KALSHI => "KALSHI"
  | .POLYMARKET => "POLYMARKET"

/-- `canArbitrage` from `src/types.ts`: two venues are compatible iff distinct. -/
def canArbitrage (venue1 venue2 : Venue) : Bool :=
  venue1 != venue2

/-- `FeeEstimateParams` from `src/types.ts`. -/
structure FeeEstimateParams where
  venue : Venue
  size_usd : ℚ
  order_type : Option OrderType
  price : Option ℚ
  market_id : Option String
  token_id : Option String

/-- `FeeBreakdown` from `src/types.ts` (optional fields are `undefined`-able). -/
structure FeeBreakdown where
  exchange_fee : ℚ
  gas_fee : Option ℚ
  slippage_estimate : Option ℚ
  settlement_fee : Option ℚ
  rebate : Option ℚ

/-- `FeeEstimate` from `src/types.ts` (timestamp omitted — not used by any claim). -/
structure FeeEstimate where
  venue : Venue
  size_usd : ℚ
  total_fee_usd : ℚ
  fee_pct : ℚ
  breakdown : FeeBreakdown
  confidence : Confidence
  assumptions : List String

/-- The `Partial<FeeBreakdown>` argument of `BaseFeeCalculator.createEstimate`. -/
structure PartialFeeBreakdown where
  exchange_fee : Option ℚ
  gas_fee : Option ℚ
  slippage_estimate : Option ℚ
  settlement_fee : Option ℚ
  rebate : Option ℚ

/-- The all-`undefined` partial breakdown. -/
def PartialFeeBreakdown.empty : PartialFeeBreakdown :=
  ⟨none, none, none, none, none⟩

/-- `BaseFeeCalculator.createEstimate` from `src/calculators/interface.ts`.
`gas_fee: gasFee || undefined` and the analogous falsy coercions are modelled
by mapping `0` to `none`. -/
def createEstimate (venue : Venue) (params : FeeEstimateParams)
    (b : PartialFeeBreakdown) (confidence : Confidence)
    (assumptions : List String) : FeeEstimate :=
  let exchangeFee := b.exchange_fee.getD 0
  let gasFee := b.gas_fee.getD 0
  let slippage := b.slippage_estimate.getD 0
  let settlement := b.settlement_fee.getD 0
  let rebate := b.rebate.getD 0
  let totalFee := exchangeFee + gasFee + slippage + settlement - rebate
  let feePct := if 0 < params.size_usd then totalFee / params.size_usd * 100 else 0
  { venue := venue
    size_usd := params.size_usd
    total_fee_usd := totalFee
    fee_pct := feePct
    breakdown :=
      { exchange_fee := exchangeFee
        gas_fee := if gasFee = 0 then none else some gasFee
        slippage_estimate := if slippage = 0 then none else some slippage
        settlement_fee := if settlement = 0 then none else some settlement
        rebate := if rebate = 0 then none else some rebate }
    confidence := confidence
    assumptions := assumptions }

/-! ### Kalshi fee calculator (`src/calculators/kalshi.ts`) -/

/-- `TAKER_COEFFICIENT` from `src/calculators/kalshi.ts`. -/
def TAKER_COEFFICIENT : ℚ := 7 / 100

/-- `MAKER_COEFFICIENT_SPECIAL` from `src/calculators/kalshi.ts`. -/
def MAKER_COEFFICIENT_SPECIAL : ℚ := 7 / 400

/-- `MAKER_COEFFICIENT_DEFAULT` from `src/calculators/kalshi.ts`. -/
def MAKER_COEFFICIENT_DEFAULT : ℚ := 0

/-- `KalshiFeeCalculator.calculateFee`: `coefficient × contracts × P×(1−P)`. -/
def calculateFee (numContracts price coefficient : ℚ) : ℚ :=
  coefficient * numContracts * (price * (1 - price))

/-- `KalshiFeeCalculator.usdToContracts`: guarded division of size by price. -/
def usdToContracts (sizeUsd price : ℚ) : ℚ :=
  if price ≤ 0 ∨ 1 ≤ price then 0 else sizeUsd / price

/-- `KalshiFeeCalculator.estimate` from `src/calculators/kalshi.ts`. -/
def kalshiEstimate (params : FeeEstimateParams) : FeeEstimate :=
  let price := params.price.getD (1 / 2)
  let sizeUsd := params.size_usd
  let numContracts := usdToContracts sizeUsd price
  let isMarketOrder := params.order_type = some OrderType.MARKET
  let coefficient := if isMarketOrder then TAKER_COEFFICIENT else MAKER_COEFFICIENT_DEFAULT
  let exchangeFee := calculateFee numContracts price coefficient
  let varianceTerm := price * (1 - price)
  let assumptions : List String :=
    [(if isMarketOrder then "Taker" else "Maker") ++ " order",
     "Formula: " ++ toString coefficient ++ " × " ++ toString numContracts
       ++ " contracts × " ++ toString price ++ " × " ++ toString (1 - price),
     "P×(1-P) = " ++ toString varianceTerm ++ " (max 0.25 at 50%)",
     "Fee: $" ++ toString exchangeFee]
    ++ (if isMarketOrder then []
        else ["Note: Maker fee is 0 for most markets, 0.0175×C×P×(1-P) for sports/macro"])
  createEstimate Venue.KALSHI params
    { PartialFeeBreakdown.empty with exchange_fee := some exchangeFee }
    Confidence.high assumptions

/-- `KalshiFeeCalculator.estimateByContracts` from `src/calculators/kalshi.ts`. -/
def estimateByContracts (numContracts price : ℚ) (orderType : OrderType)
    (isSpecialMarket : Bool) : FeeEstimate :=
  let isMarketOrder := orderType = OrderType.MARKET
  let coefficient :=
    if isMarketOrder then TAKER_COEFFICIENT
    else if isSpecialMarket then MAKER_COEFFICIENT_SPECIAL else MAKER_COEFFICIENT_DEFAULT
  let exchangeFee := calculateFee numContracts price coefficient
  let sizeUsd := numContracts * price
  let varianceTerm := price * (1 - price)
  let assumptions : List String :=
    [(if isMarketOrder then "Taker" else "Maker") ++ " order",
     "Formula: " ++ toString coefficient ++ " × " ++ toString numContracts
       ++ " × " ++ toString price ++ " × " ++ toString (1 - price),
     "P×(1-P) = " ++ toString varianceTerm,
     if isSpecialMarket then "Sports/macro market (maker fee applies)" else "Standard market"]
  createEstimate Venue.KALSHI
    { venue := Venue.KALSHI, size_usd := sizeUsd, order_type := some orderType,
      price := some price, market_id := none, token_id := none }
    { PartialFeeBreakdown.empty with exchange_fee := some exchangeFee }
    Confidence.high assumptions

/-! ### Polymarket fee calculator (`src/calculators/polymarket.ts`) -/

/-- `sub.isPrefixOf l || contains the tail`: JavaScript `String.includes`
on the character lists. -/
def charsContain (l sub : List Char) : Bool :=
  sub.isPrefixOf l ||
    match l with
    | [] => false
    | _ :: t => charsContain t sub

/-- JavaScript `s.includes(sub)` on strings. -/
def strIncludes (s sub : String) : Bool :=
  charsContain s.toList sub.toList

/-- Modelled from the spec: the per-venue static fee-schedule record loaded
from `src/schedules/polymarket.json`, which is not present under `src/`.
Fields follow §4.1 of the spec (flat maker/taker rates, a carve-out rate for
the short-duration market subtype, a minimum fee floor `minFeeUsd`, and a
fixed per-venue gas-cost constant). -/
structure PolymarketSchedule where
  maker_fee_bps : ℚ
  taker_fee_bps : ℚ
  short_duration_taker_fee_bps : ℚ
  maker_rebates_enabled : Bool
  min_fee_usd : ℚ
  gas_avg_cost_usd : ℚ

/-- `PolymarketFeeCalculator.isShortDurationCrypto` from
`src/calculators/polymarket.ts`. -/
def isShortDurationCrypto (marketId : Option String) : Bool :=
  match marketId with
  | none => false
  | some marketId =>
    let lowerMarketId := marketId.toLower
    strIncludes lowerMarketId "15m" ||
      (strIncludes lowerMarketId "crypto" && strIncludes lowerMarketId "minute")

/-- `PolymarketFeeCalculator.estimate` from `src/calculators/polymarket.ts`,
parameterised by the (spec-modelled) schedule record. -/
def polymarketEstimate (schedule : PolymarketSchedule)
    (params : FeeEstimateParams) : FeeEstimate :=
  let sizeUsd := params.size_usd
  let isMarketOrder := params.order_type = some OrderType.MARKET
  let isShortDuration := isShortDurationCrypto params.token_id
  let feeRateBps : ℚ :=
    if isMarketOrder then
      if isShortDuration then schedule.short_duration_taker_fee_bps
      else schedule.taker_fee_bps
    else schedule.maker_fee_bps
  let assumptions : List String :=
    (if isMarketOrder then
      ["Taker order (market order)"]
        ++ (if isShortDuration then ["Short-duration crypto market → higher fees"] else [])
     else
      ["Maker order (limit order) → 0% fee"]
        ++ (if schedule.maker_rebates_enabled then ["Eligible for maker rebates program"] else []))
  let feeRate := feeRateBps / 10000
  let exchangeFee := sizeUsd * feeRate
  let gasEstimate := schedule.gas_avg_cost_usd
  let assumptions := assumptions
    ++ ["Gas estimate: $" ++ toString gasEstimate ++ " (Polygon)",
        "Fee rate: " ++ toString feeRateBps ++ " bps (" ++ toString (feeRate * 100) ++ "%)"]
  createEstimate Venue.POLYMARKET params
    { PartialFeeBreakdown.empty with
        exchange_fee := some (max exchangeFee schedule.min_fee_usd)
        gas_fee := some gasEstimate }
    Confidence.high assumptions

/-! ### Orderbook model (`src/types.ts`) -/

/-- Side tag of an orderbook level, from `src/types.ts`. -/
inductive LevelSide where
  | BID
  | ASK
deriving DecidableEq, Repr

/-- `OrderbookLevel` from `src/types.ts`. -/
structure OrderbookLevel where
  price : ℚ
  size : ℚ
  side : LevelSide
deriving DecidableEq, Repr

/-- `OrderbookSnapshot` from `src/types.ts` (timestamp omitted). -/
structure OrderbookSnapshot where
  venue : Venue
  market_id : String
  best_bid : ℚ
  best_ask : ℚ
  mid_price : ℚ
  spread : ℚ
  spread_bps : ℚ
  bid_depth_usd : ℚ
  ask_depth_usd : ℚ
  levels : List OrderbookLevel

/-- Ascending-price order on levels: the `(a, b) => a.price - b.price`
comparator. -/
def levelLE (a b : OrderbookLevel) : Prop := a.price ≤ b.price

/-- Descending-price order on levels: the `(a, b) => b.price - a.price`
comparator. -/
def levelGE (a b : OrderbookLevel) : Prop := b.price ≤ a.price

instance : DecidableRel levelLE := fun _ _ => inferInstanceAs (Decidable (_ ≤ _))

instance : DecidableRel levelGE := fun _ _ => inferInstanceAs (Decidable (_ ≤ _))

instance : IsTotal OrderbookLevel levelLE := ⟨fun a b => le_total a.price b.price⟩

instance : IsTrans OrderbookLevel levelLE := ⟨fun _ _ _ h h' => le_trans h h'⟩

instance : IsTotal OrderbookLevel levelGE := ⟨fun a b => le_total b.price a.price⟩

instance : IsTrans OrderbookLevel levelGE := ⟨fun _ _ _ h h' => le_trans h' h⟩

/-! ### Cost calculator (`src/calculators/cost-calculator.ts`) -/

/-- `SpreadSlippageResult` from `src/calculators/cost-calculator.ts`. -/
structure SpreadSlippageResult where
  spread_cost_usd : ℚ
  slippage_usd : ℚ
  effective_price : ℚ
  price_impact_pct : ℚ
  levels_consumed : ℕ
deriving DecidableEq, Repr

/-- Result of the book-walking loop inside `calculateSlippage`:
accumulated `weightedPriceSum`, `totalContracts`, the `remainingUsd` left
over, and `levelsConsumed`. -/
structure WalkResult where
  wsum : ℚ
  contracts : ℚ
  remaining : ℚ
  consumed : ℕ
deriving DecidableEq, Repr

/-- The `for (const level of levels)` loop of `calculateSlippage`: at each
level fill `min(remainingUsd, price*size)` USD, converting to contracts. -/
def walkBook : List OrderbookLevel → ℚ → WalkResult
  | [], r => ⟨0, 0, r, 0⟩
  | l :: ls, r =>
    if r ≤ 0 then ⟨0, 0, r, 0⟩
    else
      let fillUsd := min r (l.price * l.size)
      let fillContracts := fillUsd / l.price
      let rest := walkBook ls (r - fillUsd)
      ⟨l.price * fillContracts + rest.wsum, fillContracts + rest.contracts,
       rest.remaining, rest.consumed + 1⟩

/-- The post-loop remainder step of `calculateSlippage`: any unfilled USD is
assumed filled at the worst (last) level's price. Returns the final
`(weightedPriceSum, totalContracts)`. -/
def fillTotals (levels : List OrderbookLevel) (lastPrice sizeUsd : ℚ) : ℚ × ℚ :=
  let res := walkBook levels sizeUsd
  if 0 < res.remaining then
    (res.wsum + lastPrice * (res.remaining / lastPrice),
     res.contracts + res.remaining / lastPrice)
  else (res.wsum, res.contracts)

/-- The relevant, sorted side of the book used by `calculateSlippage`:
`ASK` levels ascending for a `BUY`, `BID` levels descending for a `SELL`. -/
def sortedSide (orderbook : OrderbookSnapshot) (side : Side) : List OrderbookLevel :=
  match side with
  | .BUY => List.insertionSort levelLE (orderbook.levels.filter (fun l => l.side == LevelSide.ASK))
  | .SELL => List.insertionSort levelGE (orderbook.levels.filter (fun l => l.side == LevelSide.BID))

/-- The final filled-contract count of `calculateSlippage` (its
`totalContracts` after the remainder step). -/
def filledContracts (orderbook : OrderbookSnapshot) (sizeUsd : ℚ) (side : Side) : ℚ :=
  match sortedSide orderbook side with
  | [] => 0
  | top :: rest => (fillTotals (top :: rest) (List.getLastD rest top).price sizeUsd).2

/-- `calculateSlippage` from `src/calculators/cost-calculator.ts`. -/
def calculateSlippage (orderbook : OrderbookSnapshot) (sizeUsd : ℚ)
    (side : Side) : SpreadSlippageResult :=
  match sortedSide orderbook side with
  | [] =>
    { spread_cost_usd := 0
      slippage_usd := 0
      effective_price := if side = Side.BUY then orderbook.best_ask else orderbook.best_bid
      price_impact_pct := 0
      levels_consumed := 0 }
  | top :: rest =>
    let levels := top :: rest
    let bestPrice := top.price
    let lastPrice := (List.getLastD rest top).price
    let totals := fillTotals levels lastPrice sizeUsd
    let effectivePrice := if 0 < totals.2 then totals.1 / totals.2 else bestPrice
    let slippagePerContract := |effectivePrice - bestPrice|
    let slippageUsd := slippagePerContract * totals.2
    let priceImpactPct := if 0 < bestPrice then slippagePerContract / bestPrice * 100 else 0
    let midPrice := orderbook.mid_price
    let spreadCostPerContract :=
      if side = Side.BUY then bestPrice - midPrice else midPrice - bestPrice
    let spreadCostUsd := max 0 (spreadCostPerContract * totals.2)
    { spread_cost_usd := spreadCostUsd
      slippage_usd := slippageUsd
      effective_price := effectivePrice
      price_impact_pct := priceImpactPct
      levels_consumed := (walkBook levels sizeUsd).consumed }

/-- `estimateSpreadCost` from `src/calculators/cost-calculator.ts`: per-venue
typical spread, halved, times `size / price` contracts. -/
def estimateSpreadCost (venue : Venue) (sizeUsd price : ℚ) : ℚ :=
  let spread : ℚ := match venue with
    | .KALSHI => 2 / 100
    | .POLYMARKET => 1 / 100
  let halfSpread := spread / 2
  let contracts := sizeUsd / price
  halfSpread * contracts

/-- `estimateSlippage` from `src/calculators/cost-calculator.ts`:
`size × baseSlippage × sqrt(size / 1000)`; the square root (`Math.sqrt`) is
supplied as the external primitive `sq`. The `price` argument is accepted
and ignored, as in the source (`_price`). -/
def estimateSlippage (sq : ℚ → ℚ) (venue : Venue) (sizeUsd _price : ℚ) : ℚ :=
  let typicalSize : ℚ := 1000
  let baseSlippage : ℚ := match venue with
    | .KALSHI => 1 / 1000
    | .POLYMARKET => 5 / 10000
  let sizeMultiplier := sq (sizeUsd / typicalSize)
  sizeUsd * baseSlippage * sizeMultiplier

/-! ### Orderbook normalizer (`src/client/replay-labs.ts`) -/

/-- The fields of `KalshiOrderbookResponse.orderbook` consumed by the parser:
`yes_dollars` and `no_dollars` as `(price, quantity)` pairs. (`parseFloat` of
the reported price strings is abstracted into the rational `price`.) -/
structure KalshiOrderbookData where
  yes_dollars : List (ℚ × ℚ)
  no_dollars : List (ℚ × ℚ)

/-- The fields of `PolymarketOrderbookResponse` consumed by the parser:
`bids` and `asks` as `(price, size)` pairs. -/
structure PolymarketOrderbookData where
  bids : List (ℚ × ℚ)
  asks : List (ℚ × ℚ)

/-- `ReplayLabsClient.parseKalshiOrderbook`: bids from `yes_dollars` sorted
descending, asks derived via the complementary price `1 − no_price` sorted
ascending, defaults `best_bid = 0` / `best_ask = 1` on empty sides. -/
def parseKalshiOrderbook (ticker : String) (response : KalshiOrderbookData) :
    OrderbookSnapshot :=
  let bids := List.insertionSort levelGE
    (response.yes_dollars.map (fun pq => ⟨pq.1, pq.2, LevelSide.BID⟩))
  let asks := List.insertionSort levelLE
    (response.no_dollars.map (fun pq => ⟨1 - pq.1, pq.2, LevelSide.ASK⟩))
  let bestBid := ((bids.head?).map OrderbookLevel.price).getD 0
  let bestAsk := ((asks.head?).map OrderbookLevel.price).getD 1
  let midPrice := (bestBid + bestAsk) / 2
  let spread := bestAsk - bestBid
  let spreadBps := if 0 < midPrice then spread / midPrice * 10000 else 0
  let bidDepthUsd := (bids.map (fun l => l.price * l.size)).sum
  let askDepthUsd := (asks.map (fun l => l.price * l.size)).sum
  { venue := Venue.KALSHI
    market_id := ticker
    best_bid := bestBid
    best_ask := bestAsk
    mid_price := midPrice
    spread := spread
    spread_bps := spreadBps
    bid_depth_usd := bidDepthUsd
    ask_depth_usd := askDepthUsd
    levels := bids ++ asks }

/-- `ReplayLabsClient.parsePolymarketOrderbook`: 0–1 prices taken directly,
bids sorted descending, asks ascending, same defaults and derived fields. -/
def parsePolymarketOrderbook (tokenId : String) (response : PolymarketOrderbookData) :
    OrderbookSnapshot :=
  let bids := List.insertionSort levelGE
    (response.bids.map (fun pq => ⟨pq.1, pq.2, LevelSide.BID⟩))
  let asks := List.insertionSort levelLE
    (response.asks.map (fun pq => ⟨pq.1, pq.2, LevelSide.ASK⟩))
  let bestBid := ((bids.head?).map OrderbookLevel.price).getD 0
  let bestAsk := ((asks.head?).map OrderbookLevel.price).getD 1
  let midPrice := (bestBid + bestAsk) / 2
  let spread := bestAsk - bestBid
  let spreadBps := if 0 < midPrice then spread / midPrice * 10000 else 0
  let bidDepthUsd := (bids.map (fun l => l.price * l.size)).sum
  let askDepthUsd := (asks.map (fun l => l.price * l.size)).sum
  { venue := Venue.POLYMARKET
    market_id := tokenId
    best_bid := bestBid
    best_ask := bestAsk
    mid_price := midPrice
    spread := spread
    spread_bps := spreadBps
    bid_depth_usd := bidDepthUsd
    ask_depth_usd := askDepthUsd
    levels := bids ++ asks }

/-! ### Oracle (`src/oracle.ts`) -/

/-- `CostBreakdown` from `src/types.ts`. -/
structure CostBreakdown where
  exchange_fee : ℚ
  gas_fee : ℚ
  spread_cost : ℚ
  slippage : ℚ
  best_bid : Option ℚ
  best_ask : Option ℚ
  mid_price : Option ℚ
  spread_bps : Option ℚ

/-- `TradingCost` from `src/types.ts` (timestamp omitted). -/
structure TradingCost where
  venue : Venue
  size_usd : ℚ
  side : Side
  exchange_fee_usd : ℚ
  gas_fee_usd : ℚ
  explicit_cost_usd : ℚ
  spread_cost_usd : ℚ
  slippage_usd : ℚ
  implicit_cost_usd : ℚ
  total_cost_usd : ℚ
  total_cost_pct : ℚ
  breakdown : CostBreakdown
  confidence : Confidence
  mode : CostEstimateMode
  assumptions : List String
  orderbook_snapshot : Option OrderbookSnapshot

/-- `CostEstimateParams` from `src/oracle.ts` (extends `FeeEstimateParams`
with optional `side` and `mode`). -/
structure CostEstimateParams extends FeeEstimateParams where
  side : Option Side
  mode : Option CostEstimateMode

/-- The `CostOracle` state relevant to `estimateCost`: whether a Replay Labs
client is configured, and the default estimation mode. -/
structure OracleState where
  hasClient : Bool
  defaultMode : CostEstimateMode

/-- `CostOracle.estimate`: dispatch to the calculator registered for the
venue. Both supported venues are registered in the constructor, so the
dispatch is total. -/
def oracleEstimate (schedule : PolymarketSchedule) (params : FeeEstimateParams) :
    FeeEstimate :=
  match params.venue with
  | .KALSHI => kalshiEstimate params
  | .POLYMARKET => polymarketEstimate schedule params

/-- `CostOracle.estimateCost` from `src/oracle.ts`. The external orderbook
fetch is supplied as `fetched`; it is consulted only on the live-orderbook
path, and a `.error` models `getOrderbook` throwing. -/
def estimateCost (sq : ℚ → ℚ) (schedule : PolymarketSchedule) (st : OracleState)
    (fetched : Except String OrderbookSnapshot) (params : CostEstimateParams) :
    TradingCost :=
  let mode := params.mode.getD st.defaultMode
  let side := params.side.getD Side.BUY
  let price := (params.price).getD (1 / 2)
  let feeEstimate := oracleEstimate schedule params.toFeeEstimateParams
  let exchangeFee := feeEstimate.breakdown.exchange_fee
  let gasFee := feeEstimate.breakdown.gas_fee.getD 0
  let explicitCost := exchangeFee + gasFee
  let liveData :
      Option (ℚ × ℚ × Confidence × List String × Option OrderbookSnapshot) :=
    if mode = CostEstimateMode.LIVE_ORDERBOOK ∧ st.hasClient ∧ params.market_id.isSome then
      match fetched with
      | .ok orderbook =>
        let slippageResult := calculateSlippage orderbook params.size_usd side
        some (slippageResult.spread_cost_usd, slippageResult.slippage_usd,
          Confidence.high,
          ["Live orderbook: spread=" ++ toString orderbook.spread_bps ++ "bps",
           "Levels consumed: " ++ toString slippageResult.levels_consumed,
           "Price impact: " ++ toString slippageResult.price_impact_pct ++ "%"],
          some orderbook)
      | .error _ =>
        some (estimateSpreadCost params.venue params.size_usd price,
          estimateSlippage sq params.venue params.size_usd price,
          Confidence.low,
          ["Orderbook fetch failed, using estimates"], none)
    else none
  let spreadCost := (liveData.map (fun d => d.1)).getD
    (estimateSpreadCost params.venue params.size_usd price)
  let slippage := (liveData.map (fun d => d.2.1)).getD
    (estimateSlippage sq params.venue params.size_usd price)
  let confidence := (liveData.map (fun d => d.2.2.1)).getD Confidence.medium
  let assumptions := feeEstimate.assumptions ++
    (liveData.map (fun d => d.2.2.2.1)).getD
      ["Spread/slippage estimated (no live orderbook)"]
  let orderbook := (liveData.map (fun d => d.2.2.2.2)).getD none
  let implicitCost := spreadCost + slippage
  let totalCost := explicitCost + implicitCost
  let totalCostPct := if 0 < params.size_usd then totalCost / params.size_usd * 100 else 0
  { venue := params.venue
    size_usd := params.size_usd
    side := side
    exchange_fee_usd := exchangeFee
    gas_fee_usd := gasFee
    explicit_cost_usd := explicitCost
    spread_cost_usd := spreadCost
    slippage_usd := slippage
    implicit_cost_usd := implicitCost
    total_cost_usd := totalCost
    total_cost_pct := totalCostPct
    breakdown :=
      { exchange_fee := exchangeFee
        gas_fee := gasFee
        spread_cost := spreadCost
        slippage := slippage
        best_bid := orderbook.map OrderbookSnapshot.best_bid
        best_ask := orderbook.map OrderbookSnapshot.best_ask
        mid_price := orderbook.map OrderbookSnapshot.mid_price
        spread_bps := orderbook.map OrderbookSnapshot.spread_bps }
    confidence := confidence
    mode := mode
    assumptions := assumptions
    orderbook_snapshot := orderbook }

/-! ### Arbitrage analyzer (`src/oracle.ts`) -/

/-- `TradeLeg` from `src/types.ts`. -/
structure TradeLeg where
  venue : Venue
  direction : Side
  size_usd : ℚ
  price : Option ℚ
  market_id : Option String
  order_type : Option OrderType

/-- A per-leg estimate: either a bare `FeeEstimate` or a full `TradingCost`
(the `'total_cost_usd' in est` structural check in the source becomes a tag). -/
inductive LegEstimate where
  | fee (e : FeeEstimate)
  | cost (c : TradingCost)

/-- The per-leg total used by the `totalCosts` reduction:
`total_cost_usd` for a `TradingCost`, `total_fee_usd` for a `FeeEstimate`. -/
def legTotal : LegEstimate → ℚ
  | .cost c => c.total_cost_usd
  | .fee e => e.total_fee_usd

/-- `ArbitrageAnalysis` from `src/types.ts`. -/
structure ArbitrageAnalysis where
  legs : List TradeLeg
  gross_profit_usd : ℚ
  total_fees_usd : ℚ
  net_profit_usd : ℚ
  net_profit_pct : ℚ
  leg_estimates : List LegEstimate
  is_profitable : Bool
  min_profit_threshold_pct : ℚ

/-- `[...new Set(venues)]`: deduplication preserving first occurrences. -/
def dedupKeepFirst : List Venue → List Venue
  | [] => []
  | a :: l => a :: dedupKeepFirst (l.filter (fun x => x != a))
termination_by l => l.length
decreasing_by
  simp only [List.length_cons]
  exact Nat.lt_succ_of_le (List.length_filter_le _ _)

/-- The nested `for i / for j` loops of `analyzeArbitrage`: the first pair
`(v1, v2)`, `i < j`, with `!canArbitrage(v1, v2)`. -/
def firstBadPair : List Venue → Option (Venue × Venue)
  | [] => none
  | v :: vs =>
    match vs.find? (fun w => !canArbitrage v w) with
    | some w => some (v, w)
    | none => firstBadPair vs

/-- The error message thrown by `analyzeArbitrage` on an incompatible pair. -/
def arbError (v1 v2 : Venue) : String :=
  "Cross-venue arbitrage requires different venues. Got " ++ venueName v1
    ++ " and " ++ venueName v2 ++ "."

/-- The validation prologue of `analyzeArbitrage`: dedupe the leg venues and,
when two or more distinct venues are present, scan all pairs for the first
one failing `canArbitrage`. -/
def validateVenues (legs : List TradeLeg) : Option (Venue × Venue) :=
  let uniqueVenues := dedupKeepFirst (legs.map TradeLeg.venue)
  if 2 ≤ uniqueVenues.length then firstBadPair uniqueVenues else none

/-- `CostOracle.analyzeArbitrage` from `src/oracle.ts`, parameterised by the
per-leg estimator (the source picks `estimateCost` or `estimate` per leg
depending on `useLiveOrderbook && this.replayLabsClient`). -/
def analyzeArbitrage (estimator : TradeLeg → LegEstimate) (legs : List TradeLeg)
    (grossProfit minProfitThresholdPct : ℚ) : Except String ArbitrageAnalysis :=
  match validateVenues legs with
  | some (v1, v2) => .error (arbError v1 v2)
  | none =>
    let legEstimates := legs.map estimator
    let totalCosts := (legEstimates.map legTotal).sum
    let netProfit := grossProfit - totalCosts
    let totalSize := (legs.map TradeLeg.size_usd).sum
    let netProfitPct := if 0 < totalSize then netProfit / totalSize * 100 else 0
    .ok
      { legs := legs
        gross_profit_usd := grossProfit
        total_fees_usd := totalCosts
        net_profit_usd := netProfit
        net_profit_pct := netProfitPct
        leg_estimates := legEstimates
        is_profitable := decide (minProfitThresholdPct ≤ netProfitPct)
        min_profit_threshold_pct := minProfitThresholdPct }

/-- `analyzeArbitrage` at its default threshold (`minProfitThresholdPct = 0.5`). -/
def analyzeArbitrageDefault (estimator : TradeLeg → LegEstimate)
    (legs : List TradeLeg) (grossProfit : ℚ) : Except String ArbitrageAnalysis :=
  analyzeArbitrage estimator legs grossProfit (1 / 2)

/-! ### Derived accessors and concrete sample inputs -/

/-- The best price of the relevant sorted side (head of `sortedSide`),
the `bestPrice` local of `calculateSlippage`; `0` for an empty side. -/
def bestSidePrice (orderbook : OrderbookSnapshot) (side : Side) : ℚ :=
  match sortedSide orderbook side with
  | [] => 0
  | top :: _ => top.price

/-- Modelled from the spec: a concrete Polymarket schedule record standing in
for the missing `src/schedules/polymarket.json` — taker 1 bp (spec §8
scenario), maker 0 bp (the calculator's header comment), no minimum-fee
floor, and a small fixed Polygon gas constant. -/
def sampleSchedule : PolymarketSchedule :=
  ⟨0, 1, 0, false, 0, 1 / 100⟩

/-- A flat stub per-leg fee estimate (total fee $20) used to exercise the
arbitrage aggregation on concrete inputs. -/
def sampleFeeEstimate : FeeEstimate :=
  ⟨Venue.KALSHI, 1000, 20, 2, ⟨20, none, none, none, none⟩, Confidence.high,
   ["flat stub estimate"]⟩

/-- The two-leg scenario of spec §8: BUY $1000 at 0.475 on one venue, SELL
$1000 at 0.525 on the other. -/
def sampleLegs : List TradeLeg :=
  [⟨Venue.KALSHI, Side.BUY, 1000, some (19 / 40), none, some OrderType.MARKET⟩,
   ⟨Venue.POLYMARKET, Side.SELL, 1000, some (21 / 40), none, some OrderType.MARKET⟩]

/-- A small concrete orderbook snapshot: one bid at 0.40, one ask at 0.50,
mid price 0.45. -/
def sampleOrderbook : OrderbookSnapshot :=
  ⟨Venue.KALSHI, "KXTEST", 2 / 5, 1 / 2, 9 / 20, 1 / 10, 20000 / 90, 4, 5,
   [⟨2 / 5, 10, LevelSide.BID⟩, ⟨1 / 2, 10, LevelSide.ASK⟩]⟩

/-! ## Helper lemmas -/

theorem kalshiEstimate_exchange_fee (p : FeeEstimateParams) :
    (kalshiEstimate p).breakdown.exchange_fee =
      calculateFee (usdToContracts p.size_usd (p.price.getD (1 / 2)))
        (p.price.getD (1 / 2))
        (if p.order_type = some OrderType.MARKET then TAKER_COEFFICIENT
         else MAKER_COEFFICIENT_DEFAULT) := rfl

theorem kalshiEstimate_total (p : FeeEstimateParams) :
    (kalshiEstimate p).total_fee_usd = (kalshiEstimate p).breakdown.exchange_fee := by
  simp [kalshiEstimate, createEstimate, PartialFeeBreakdown.empty]

theorem kalshiEstimate_fee_pct (p : FeeEstimateParams) :
    (kalshiEstimate p).fee_pct =
      if 0 < p.size_usd then (kalshiEstimate p).total_fee_usd / p.size_usd * 100 else 0 := rfl

theorem kalshiEstimate_confidence (p : FeeEstimateParams) :
    (kalshiEstimate p).confidence = Confidence.high := rfl

theorem estimateByContracts_exchange_fee (numContracts price : ℚ) (special : Bool) :
    (estimateByContracts numContracts price OrderType.MARKET special).breakdown.exchange_fee =
      calculateFee numContracts price TAKER_COEFFICIENT := rfl

/-! ## C1 -/

/-- C1 (counterexample): for `KalshiFeeCalculator.estimate` with the trade
size in USD held fixed at $1000, the MARKET-order exchange fee at price
`P = 1/4` is $52.50, at `P = 3/4` it is $17.50, and at the midpoint it is
$35 — so neither the symmetry `fee(P) = fee(1−P)` nor the midpoint maximum
`fee(0.5) ≥ fee(P)` holds with USD size fixed. -/
theorem c1_usd_fee_curve_counterexample :
    (kalshiEstimate ⟨Venue.KALSHI, 1000, some OrderType.MARKET, some (1 / 4), none,
        none⟩).breakdown.exchange_fee = 105 / 2
    ∧ (kalshiEstimate ⟨Venue.KALSHI, 1000, some OrderType.MARKET, some (3 / 4), none,
        none⟩).breakdown.exchange_fee = 35 / 2
    ∧ (kalshiEstimate ⟨Venue.KALSHI, 1000, some OrderType.MARKET, some (1 / 2), none,
        none⟩).breakdown.exchange_fee = 35
    ∧ ¬((105 : ℚ) / 2 = 35 / 2)
    ∧ ¬((35 : ℚ) ≥ 105 / 2) := by
  refine ⟨?_, ?_, ?_, by norm_num, by norm_num⟩ <;>
    · rw [kalshiEstimate_exchange_fee]
      norm_num [usdToContracts, calculateFee, TAKER_COEFFICIENT]

/-- C1 (amended): the symmetric, midpoint-maximal fee curve holds with the
number of contracts held fixed: for a MARKET order,
`estimateByContracts` gives `fee(P) = fee(1−P)` for all `P ∈ (0,1)` and
`fee(0.5) ≥ fee(P)` whenever the contract count is non-negative. -/
theorem c1_contract_fee_curve (numContracts P : ℚ) (special : Bool)
    (hC : 0 ≤ numContracts) (h0 : 0 < P) (h1 : P < 1) :
    (estimateByContracts numContracts P OrderType.MARKET special).breakdown.exchange_fee =
      (estimateByContracts numContracts (1 - P) OrderType.MARKET special).breakdown.exchange_fee
    ∧ (estimateByContracts numContracts (1 / 2) OrderType.MARKET special).breakdown.exchange_fee ≥
      (estimateByContracts numContracts P OrderType.MARKET special).breakdown.exchange_fee := by
  rw [estimateByContracts_exchange_fee, estimateByContracts_exchange_fee,
    estimateByContracts_exchange_fee]
  unfold calculateFee TAKER_COEFFICIENT
  constructor
  · ring
  · nlinarith [mul_nonneg hC (sq_nonneg (P - 1 / 2))]

/-- C1 witness for `c1_contract_fee_curve` at 2000 contracts, `P = 1/4`. -/
theorem c1_contract_fee_curve_witness :
    (0 : ℚ) ≤ 2000 ∧ (0 : ℚ) < 1 / 4 ∧ (1 : ℚ) / 4 < 1 ∧
    ((estimateByContracts 2000 (1 / 4) OrderType.MARKET false).breakdown.exchange_fee =
      (estimateByContracts 2000 (1 - 1 / 4) OrderType.MARKET false).breakdown.exchange_fee
    ∧ (estimateByContracts 2000 (1 / 2) OrderType.MARKET false).breakdown.exchange_fee ≥
      (estimateByContracts 2000 (1 / 4) OrderType.MARKET false).breakdown.exchange_fee) :=
  ⟨by norm_num, by norm_num, by norm_num,
   c1_contract_fee_curve 2000 (1 / 4) false (by norm_num) (by norm_num) (by norm_num)⟩

/-! ## C5 -/

/-- C5: for every size `S` and price `P` strictly between 0 and 1, the
Kalshi MARKET-order exchange fee is `0.07 × (S/P) × P × (1−P)`; and for
`P ≤ 0` or `P ≥ 1` the calculator fails closed: zero contracts, zero fee. -/
theorem c5_kalshi_market_fee_formula (S P : ℚ) :
    (0 < P → P < 1 →
      (kalshiEstimate ⟨Venue.KALSHI, S, some OrderType.MARKET, some P, none,
          none⟩).breakdown.exchange_fee = 7 / 100 * (S / P) * (P * (1 - P)))
    ∧ (P ≤ 0 ∨ 1 ≤ P →
      usdToContracts S P = 0
      ∧ (kalshiEstimate ⟨Venue.KALSHI, S, some OrderType.MARKET, some P, none,
          none⟩).breakdown.exchange_fee = 0) := by
  constructor
  · intro h0 h1
    rw [kalshiEstimate_exchange_fee]
    simp only [Option.getD_some]
    rw [usdToContracts, if_neg (by push_neg; exact ⟨h0, h1⟩)]
    simp [calculateFee, TAKER_COEFFICIENT]
  · intro h
    have hc : usdToContracts S P = 0 := by rw [usdToContracts, if_pos h]
    refine ⟨hc, ?_⟩
    rw [kalshiEstimate_exchange_fee]
    simp only [Option.getD_some]
    rw [hc]
    simp [calculateFee]

/-- C5 witness: `S = 1000`, `P = 0.50` gives 2000 contracts and a $35 fee. -/
theorem c5_kalshi_market_fee_formula_witness :
    (0 : ℚ) < 1 / 2 ∧ (1 : ℚ) / 2 < 1
    ∧ (kalshiEstimate ⟨Venue.KALSHI, 1000, some OrderType.MARKET, some (1 / 2), none,
        none⟩).breakdown.exchange_fee = 35
    ∧ usdToContracts 1000 (1 / 2) = 2000 := by
  refine ⟨by norm_num, by norm_num, ?_, by norm_num [usdToContracts]⟩
  have h := (c5_kalshi_market_fee_formula 1000 (1 / 2)).1 (by norm_num) (by norm_num)
  rw [h]
  norm_num

/-! ## C10 -/

/-- C10: every Kalshi request whose `order_type` is not exactly `MARKET`
(including an omitted `order_type`) is priced as a maker with coefficient 0:
for every size and every price in `(0,1)` the exchange fee and
`total_fee_usd` are exactly 0 while confidence is still `high`. -/
theorem c10_kalshi_non_market_zero_fee (S P : ℚ) (ot : Option OrderType)
    (hot : ot ≠ some OrderType.MARKET) (h0 : 0 < P) (h1 : P < 1) :
    (kalshiEstimate ⟨Venue.KALSHI, S, ot, some P, none, none⟩).breakdown.exchange_fee = 0
    ∧ (kalshiEstimate ⟨Venue.KALSHI, S, ot, some P, none, none⟩).total_fee_usd = 0
    ∧ (kalshiEstimate ⟨Venue.KALSHI, S, ot, some P, none, none⟩).confidence =
        Confidence.high := by
  have hfee :
      (kalshiEstimate ⟨Venue.KALSHI, S, ot, some P, none, none⟩).breakdown.exchange_fee = 0 := by
    rw [kalshiEstimate_exchange_fee]
    simp only [if_neg hot]
    simp [calculateFee, MAKER_COEFFICIENT_DEFAULT]
  exact ⟨hfee, by rw [kalshiEstimate_total, hfee], kalshiEstimate_confidence _⟩

/-- C10 witness: omitted order type, `S = 500`, `P = 0.3`. -/
theorem c10_kalshi_non_market_zero_fee_witness :
    (none ≠ some OrderType.MARKET) ∧ (0 : ℚ) < 3 / 10 ∧ (3 : ℚ) / 10 < 1
    ∧ ((kalshiEstimate ⟨Venue.KALSHI, 500, none, some (3 / 10), none,
          none⟩).breakdown.exchange_fee = 0
      ∧ (kalshiEstimate ⟨Venue.KALSHI, 500, none, some (3 / 10), none,
          none⟩).total_fee_usd = 0
      ∧ (kalshiEstimate ⟨Venue.KALSHI, 500, none, some (3 / 10), none,
          none⟩).confidence = Confidence.high) :=
  ⟨by simp, by norm_num, by norm_num,
   c10_kalshi_non_market_zero_fee 500 (3 / 10) none (by simp) (by norm_num) (by norm_num)⟩

/-! ## C9 -/

theorem polymarketEstimate_total (schedule : PolymarketSchedule) (p : FeeEstimateParams) :
    (polymarketEstimate schedule p).total_fee_usd =
      (polymarketEstimate schedule p).breakdown.exchange_fee + schedule.gas_avg_cost_usd := by
  simp [polymarketEstimate, createEstimate, PartialFeeBreakdown.empty]

theorem polymarketEstimate_fee_pct (schedule : PolymarketSchedule) (p : FeeEstimateParams) :
    (polymarketEstimate schedule p).fee_pct =
      if 0 < p.size_usd then (polymarketEstimate schedule p).total_fee_usd / p.size_usd * 100
      else 0 := rfl

/-- C9: for every size `S` and any schedule, a Polymarket MARKET order on a
market that is not short-duration-crypto pays
`exchange fee = max(S × taker_fee_bps/10000, min_fee_usd)`, the fixed gas
addend appears in the breakdown (when non-zero) and is added into
`total_fee_usd`; with a 1 bp taker rate (and the minimum-fee floor below $1)
`S = 10000` gives an exchange fee of exactly $1.00. -/
theorem c9_polymarket_flat_taker_fee (schedule : PolymarketSchedule) (S : ℚ)
    (tok : Option String) (h : isShortDurationCrypto tok = false) :
    (polymarketEstimate schedule ⟨Venue.POLYMARKET, S, some OrderType.MARKET, none, none,
        tok⟩).breakdown.exchange_fee =
      max (S * (schedule.taker_fee_bps / 10000)) schedule.min_fee_usd
    ∧ (polymarketEstimate schedule ⟨Venue.POLYMARKET, S, some OrderType.MARKET, none, none,
        tok⟩).total_fee_usd =
      max (S * (schedule.taker_fee_bps / 10000)) schedule.min_fee_usd
        + schedule.gas_avg_cost_usd
    ∧ (schedule.gas_avg_cost_usd ≠ 0 →
      (polymarketEstimate schedule ⟨Venue.POLYMARKET, S, some OrderType.MARKET, none, none,
          tok⟩).breakdown.gas_fee = some schedule.gas_avg_cost_usd)
    ∧ (schedule.taker_fee_bps = 1 → schedule.min_fee_usd ≤ 1 → S = 10000 →
      (polymarketEstimate schedule ⟨Venue.POLYMARKET, S, some OrderType.MARKET, none, none,
          tok⟩).breakdown.exchange_fee = 1) := by
  have hfee :
      (polymarketEstimate schedule ⟨Venue.POLYMARKET, S, some OrderType.MARKET, none, none,
          tok⟩).breakdown.exchange_fee =
        max (S * (schedule.taker_fee_bps / 10000)) schedule.min_fee_usd := by
    simp [polymarketEstimate, createEstimate, PartialFeeBreakdown.empty, h]
  refine ⟨hfee, by rw [polymarketEstimate_total, hfee], ?_, ?_⟩
  · intro hg
    simp [polymarketEstimate, createEstimate, PartialFeeBreakdown.empty, hg]
  · intro h1 hmin hS
    rw [hfee, h1, hS]
    rw [max_eq_left (by linarith [hmin])]
    norm_num

/-- C9 witness: the spec-modelled 1 bp schedule, `S = 10000`, no token id. -/
theorem c9_polymarket_flat_taker_fee_witness :
    isShortDurationCrypto none = false
    ∧ ((polymarketEstimate sampleSchedule ⟨Venue.POLYMARKET, 10000, some OrderType.MARKET,
          none, none, none⟩).breakdown.exchange_fee =
        max (10000 * (sampleSchedule.taker_fee_bps / 10000)) sampleSchedule.min_fee_usd
      ∧ (polymarketEstimate sampleSchedule ⟨Venue.POLYMARKET, 10000, some OrderType.MARKET,
          none, none, none⟩).total_fee_usd =
        max (10000 * (sampleSchedule.taker_fee_bps / 10000)) sampleSchedule.min_fee_usd
          + sampleSchedule.gas_avg_cost_usd
      ∧ (sampleSchedule.gas_avg_cost_usd ≠ 0 →
        (polymarketEstimate sampleSchedule ⟨Venue.POLYMARKET, 10000, some OrderType.MARKET,
            none, none, none⟩).breakdown.gas_fee = some sampleSchedule.gas_avg_cost_usd)
      ∧ (sampleSchedule.taker_fee_bps = 1 → sampleSchedule.min_fee_usd ≤ 1 → (10000 : ℚ) = 10000 →
        (polymarketEstimate sampleSchedule ⟨Venue.POLYMARKET, 10000, some OrderType.MARKET,
            none, none, none⟩).breakdown.exchange_fee = 1)) :=
  ⟨rfl, c9_polymarket_flat_taker_fee sampleSchedule 10000 none rfl⟩

/-! ## C7 -/

/-- C7 (counterexample): the claim's "zero-valued estimate" fails for a
negative size: a Kalshi MARKET order of size −$100 at price 0.50 returns a
total fee of −$3.50, which is not zero. -/
theorem c7_degenerate_counterexample :
    (kalshiEstimate ⟨Venue.KALSHI, -100, some OrderType.MARKET, some (1 / 2), none,
        none⟩).total_fee_usd = -(7 / 2)
    ∧ (-(7 / 2) : ℚ) ≠ 0 := by
  refine ⟨?_, by norm_num⟩
  rw [kalshiEstimate_total, kalshiEstimate_exchange_fee]
  norm_num [usdToContracts, calculateFee, TAKER_COEFFICIENT]

/-- C7 (amended): for degenerate inputs the registered calculators never
divide by zero and stay total, `fee_pct` is 0 whenever `size_usd` is not
positive, Kalshi fails closed to zero contracts and a zero exchange fee for
a probability price at or outside `[0,1]`, and every estimate carries at
least one assumption string — but the estimate is not zero-valued in
general (a negative size yields a sign-flipped fee, see the
counterexample). -/
theorem c7_degenerate_inputs (schedule : PolymarketSchedule) (params : FeeEstimateParams) :
    (params.size_usd ≤ 0 →
      (kalshiEstimate params).fee_pct = 0
      ∧ (polymarketEstimate schedule params).fee_pct = 0)
    ∧ (∀ P : ℚ, P ≤ 0 ∨ 1 ≤ P → usdToContracts params.size_usd P = 0)
    ∧ (∀ P : ℚ, params.price = some P → P ≤ 0 ∨ 1 ≤ P →
      (kalshiEstimate params).breakdown.exchange_fee = 0)
    ∧ (kalshiEstimate params).assumptions ≠ []
    ∧ (polymarketEstimate schedule params).assumptions ≠ [] := by
  refine ⟨?_, ?_, ?_, ?_, ?_⟩
  · intro hs
    rw [kalshiEstimate_fee_pct, polymarketEstimate_fee_pct]
    rw [if_neg (not_lt.mpr hs), if_neg (not_lt.mpr hs)]
    exact ⟨rfl, rfl⟩
  · intro P hP
    rw [usdToContracts, if_pos hP]
  · intro P hP hbound
    rw [kalshiEstimate_exchange_fee, hP]
    simp only [Option.getD_some]
    rw [usdToContracts, if_pos hbound]
    simp [calculateFee]
  · simp [kalshiEstimate, createEstimate]
  · by_cases hm : params.order_type = some OrderType.MARKET <;>
      simp [polymarketEstimate, createEstimate, hm]

/-- C7 witness for `c7_degenerate_inputs` at size 0 with an out-of-bounds
price. -/
theorem c7_degenerate_inputs_witness :
    ((0 : ℚ) ≤ 0)
    ∧ ((kalshiEstimate ⟨Venue.KALSHI, 0, some OrderType.MARKET, some (3 / 2), none,
          none⟩).fee_pct = 0
      ∧ (polymarketEstimate sampleSchedule ⟨Venue.KALSHI, 0, some OrderType.MARKET,
          some (3 / 2), none, none⟩).fee_pct = 0)
    ∧ usdToContracts (0 : ℚ) (3 / 2) = 0
    ∧ (kalshiEstimate ⟨Venue.KALSHI, 0, some OrderType.MARKET, some (3 / 2), none,
        none⟩).breakdown.exchange_fee = 0 := by
  have h := c7_degenerate_inputs sampleSchedule
    ⟨Venue.KALSHI, 0, some OrderType.MARKET, some (3 / 2), none, none⟩
  exact ⟨le_refl 0, h.1 (le_refl 0), h.2.1 (3 / 2) (Or.inr (by norm_num)),
    h.2.2.1 (3 / 2) rfl (Or.inr (by norm_num))⟩

/-! ## C3 -/

theorem firstBadPair_eq_some {l : List Venue} {v w : Venue}
    (h : firstBadPair l = some (v, w)) : canArbitrage v w = false := by
  induction l with
  | nil => simp [firstBadPair] at h
  | cons x xs ih =>
    rw [firstBadPair] at h
    rcases hf : xs.find? (fun w => !canArbitrage x w) with _ | w'
    · rw [hf] at h
      exact ih h
    · rw [hf] at h
      have hp := List.find?_some hf
      injection h with h'
      rw [Prod.mk.injEq] at h'
      obtain ⟨rfl, rfl⟩ := h'
      simpa using hp

theorem firstBadPair_eq_none {l : List Venue} (h : firstBadPair l = none) :
    ∀ v w : Venue, [v, w].Sublist l → canArbitrage v w = true := by
  induction l with
  | nil =>
    intro v w hs
    simp at hs
  | cons x xs ih =>
    rw [firstBadPair] at h
    rcases hf : xs.find? (fun w => !canArbitrage x w) with _ | w'
    · rw [hf] at h
      intro v w hs
      cases hs with
      | cons _ hs' => exact ih h v w hs'
      | cons₂ _ hs' =>
        have hw : w ∈ xs := List.singleton_sublist.mp hs'
        have := List.find?_eq_none.mp hf w hw
        simpa using this
    · rw [hf] at h
      exact absurd h (by simp)

theorem analyzeArbitrage_error {legs : List TradeLeg} {v1 v2 : Venue}
    (f : TradeLeg → LegEstimate) (grossProfit thr : ℚ)
    (h : validateVenues legs = some (v1, v2)) :
    analyzeArbitrage f legs grossProfit thr = .error (arbError v1 v2) := by
  unfold analyzeArbitrage
  rw [h]

theorem analyzeArbitrage_ok {legs : List TradeLeg}
    (f : TradeLeg → LegEstimate) (grossProfit thr : ℚ)
    (h : validateVenues legs = none) :
    analyzeArbitrage f legs grossProfit thr = .ok
      { legs := legs
        gross_profit_usd := grossProfit
        total_fees_usd := ((legs.map f).map legTotal).sum
        net_profit_usd := grossProfit - ((legs.map f).map legTotal).sum
        net_profit_pct :=
          if 0 < (legs.map TradeLeg.size_usd).sum then
            (grossProfit - ((legs.map f).map legTotal).sum)
              / (legs.map TradeLeg.size_usd).sum * 100
          else 0
        leg_estimates := legs.map f
        is_profitable :=
          decide (thr ≤ if 0 < (legs.map TradeLeg.size_usd).sum then
            (grossProfit - ((legs.map f).map legTotal).sum)
              / (legs.map TradeLeg.size_usd).sum * 100
          else 0)
        min_profit_threshold_pct := thr } := by
  unfold analyzeArbitrage
  rw [h]

/-- C3: `analyzeArbitrage` validates every pairwise combination of the
distinct leg venues against `canArbitrage` before any estimation: when the
scan finds an incompatible pair it returns the error naming both venues,
and the result is then independent of the per-leg estimator (so no cost
computation can influence it); when it succeeds, every distinct venue pair
satisfied `canArbitrage`; zero-leg and single-distinct-venue inputs pass. -/
theorem c3_arbitrage_validation (f g : TradeLeg → LegEstimate) (legs : List TradeLeg)
    (grossProfit thr : ℚ) :
    (∀ v1 v2 : Venue, validateVenues legs = some (v1, v2) →
      canArbitrage v1 v2 = false
      ∧ analyzeArbitrage f legs grossProfit thr = .error (arbError v1 v2)
      ∧ analyzeArbitrage f legs grossProfit thr = analyzeArbitrage g legs grossProfit thr)
    ∧ ((analyzeArbitrage f legs grossProfit thr).isOk = true →
      ∀ v w : Venue, [v, w].Sublist (dedupKeepFirst (legs.map TradeLeg.venue)) →
        canArbitrage v w = true)
    ∧ (legs = [] → (analyzeArbitrage f legs grossProfit thr).isOk = true)
    ∧ ((dedupKeepFirst (legs.map TradeLeg.venue)).length ≤ 1 →
      (analyzeArbitrage f legs grossProfit thr).isOk = true) := by
  have hlen : ∀ h : (dedupKeepFirst (legs.map TradeLeg.venue)).length ≤ 1,
      validateVenues legs = none := by
    intro h
    unfold validateVenues
    rw [if_neg (by omega)]
  refine ⟨?_, ?_, ?_, ?_⟩
  · intro v1 v2 hv
    have hbad : firstBadPair (dedupKeepFirst (legs.map TradeLeg.venue)) = some (v1, v2) := by
      unfold validateVenues at hv
      by_cases h2 : 2 ≤ (dedupKeepFirst (legs.map TradeLeg.venue)).length
      · rwa [if_pos h2] at hv
      · rw [if_neg h2] at hv
        exact absurd hv (by simp)
    exact ⟨firstBadPair_eq_some hbad,
      analyzeArbitrage_error f grossProfit thr hv,
      by rw [analyzeArbitrage_error f grossProfit thr hv,
        analyzeArbitrage_error g grossProfit thr hv]⟩
  · intro hok v w hs
    rcases hv : validateVenues legs with _ | ⟨v1, v2⟩
    · unfold validateVenues at hv
      by_cases h2 : 2 ≤ (dedupKeepFirst (legs.map TradeLeg.venue)).length
      · rw [if_pos h2] at hv
        exact firstBadPair_eq_none hv v w hs
      · have := hs.length_le
        simp at this
        omega
    · rw [analyzeArbitrage_error f grossProfit thr hv] at hok
      simp [Except.isOk, Except.toBool] at hok
  · intro hnil
    subst hnil
    rw [analyzeArbitrage_ok f grossProfit thr (hlen (by simp [dedupKeepFirst]))]
    rfl
  · intro h1
    rw [analyzeArbitrage_ok f grossProfit thr (hlen h1)]
    rfl

/-- C3 witness for `c3_arbitrage_validation`: a single-venue two-leg input
passes validation. -/
theorem c3_arbitrage_validation_witness :
    ((dedupKeepFirst (List.map TradeLeg.venue
        [⟨Venue.KALSHI, Side.BUY, 100, none, none, none⟩,
         ⟨Venue.KALSHI, Side.SELL, 100, none, none, none⟩])).length ≤ 1)
    ∧ (analyzeArbitrage (fun _ => LegEstimate.fee sampleFeeEstimate)
        [⟨Venue.KALSHI, Side.BUY, 100, none, none, none⟩,
         ⟨Venue.KALSHI, Side.SELL, 100, none, none, none⟩] 50 (1 / 2)).isOk = true := by
  have hlen : (dedupKeepFirst (List.map TradeLeg.venue
      [(⟨Venue.KALSHI, Side.BUY, 100, none, none, none⟩ : TradeLeg),
       ⟨Venue.KALSHI, Side.SELL, 100, none, none, none⟩])).length ≤ 1 := by
    simp [dedupKeepFirst]
  exact ⟨hlen,
    (c3_arbitrage_validation (fun _ => LegEstimate.fee sampleFeeEstimate)
      (fun _ => LegEstimate.fee sampleFeeEstimate) _ 50 (1 / 2)).2.2.2 hlen⟩

/-! ## C4 -/

/-- C4: on the success path `analyzeArbitrage` returns
`net_profit_usd = grossProfit − Σ per-leg totals` (`total_cost_usd` for
`TradingCost` legs, `total_fee_usd` for `FeeEstimate` legs),
`net_profit_pct = net_profit_usd / Σ leg sizes × 100` (0 when the total
size is 0), and `is_profitable = (net_profit_pct ≥ threshold)` — true at
exact equality — with the default threshold equal to 0.5. -/
theorem c4_arbitrage_aggregation (f : TradeLeg → LegEstimate) (legs : List TradeLeg)
    (grossProfit thr : ℚ) (a : ArbitrageAnalysis)
    (h : analyzeArbitrage f legs grossProfit thr = .ok a) :
    a.total_fees_usd = ((legs.map f).map legTotal).sum
    ∧ a.net_profit_usd = grossProfit - ((legs.map f).map legTotal).sum
    ∧ a.net_profit_pct =
      (if 0 < (legs.map TradeLeg.size_usd).sum then
        a.net_profit_usd / (legs.map TradeLeg.size_usd).sum * 100 else 0)
    ∧ ((legs.map TradeLeg.size_usd).sum = 0 → a.net_profit_pct = 0)
    ∧ (a.is_profitable = true ↔ thr ≤ a.net_profit_pct)
    ∧ (a.net_profit_pct = thr → a.is_profitable = true)
    ∧ analyzeArbitrageDefault f legs grossProfit = analyzeArbitrage f legs grossProfit (1 / 2) := by
  rcases hv : validateVenues legs with _ | ⟨v1, v2⟩
  · rw [analyzeArbitrage_ok f grossProfit thr hv] at h
    obtain rfl : _ = a := Except.ok.inj h
    refine ⟨rfl, rfl, rfl, ?_, ?_, ?_, rfl⟩
    · intro hz
      simp [hz]
    · simp
    · intro he
      exact decide_eq_true (le_of_eq he.symm)
  · rw [analyzeArbitrage_error f grossProfit thr hv] at h
    exact absurd h (by simp)

/-- C4 witness: the spec §8 two-leg scenario with flat $20-per-leg stub
estimates, gross profit $50 and threshold 0.5% — the boundary case where
`net_profit_pct` equals the threshold exactly and `is_profitable` is true. -/
theorem c4_arbitrage_aggregation_witness :
    (analyzeArbitrage (fun _ => LegEstimate.fee sampleFeeEstimate) sampleLegs 50 (1 / 2)
      = .ok
        { legs := sampleLegs
          gross_profit_usd := 50
          total_fees_usd := 40
          net_profit_usd := 10
          net_profit_pct := 1 / 2
          leg_estimates := sampleLegs.map (fun _ => LegEstimate.fee sampleFeeEstimate)
          is_profitable := true
          min_profit_threshold_pct := 1 / 2 })
    ∧ ((1 : ℚ) / 2 = 1 / 2 →
        (ArbitrageAnalysis.is_profitable
          { legs := sampleLegs
            gross_profit_usd := 50
            total_fees_usd := 40
            net_profit_usd := 10
            net_profit_pct := 1 / 2
            leg_estimates := sampleLegs.map (fun _ => LegEstimate.fee sampleFeeEstimate)
            is_profitable := true
            min_profit_threshold_pct := 1 / 2 }) = true) := by
  have hv : validateVenues sampleLegs = none := by
    unfold validateVenues
    rw [if_pos (by simp [sampleLegs, dedupKeepFirst])]
    simp [sampleLegs, dedupKeepFirst, firstBadPair, canArbitrage]
  have h := analyzeArbitrage_ok (fun _ => LegEstimate.fee sampleFeeEstimate) 50 (1 / 2) hv
  have hrec : analyzeArbitrage (fun _ => LegEstimate.fee sampleFeeEstimate) sampleLegs 50 (1 / 2)
      = .ok
        { legs := sampleLegs
          gross_profit_usd := 50
          total_fees_usd := 40
          net_profit_usd := 10
          net_profit_pct := 1 / 2
          leg_estimates := sampleLegs.map (fun _ => LegEstimate.fee sampleFeeEstimate)
          is_profitable := true
          min_profit_threshold_pct := 1 / 2 } := by
    rw [h]
    norm_num [sampleLegs, sampleFeeEstimate, legTotal]
  exact ⟨hrec,
    (c4_arbitrage_aggregation (fun _ => LegEstimate.fee sampleFeeEstimate) sampleLegs
      50 (1 / 2) _ hrec).2.2.2.2.2.1⟩

/-! ## C2 -/

/-- C2 (counterexample): when live data was simply never requested (no client
configured, default `PUBLIC_SCHEDULE` mode) the heuristic path is taken but
confidence stays `medium`, not `low` — the claimed downgrade to `low`
happens only when the fetch itself fails. -/
theorem c2_confidence_counterexample :
    (estimateCost (fun _ => 0) sampleSchedule ⟨false, CostEstimateMode.PUBLIC_SCHEDULE⟩
      (.error "network error")
      ⟨⟨Venue.KALSHI, 1000, some OrderType.MARKET, some (1 / 2), none, none⟩, none,
        none⟩).confidence = Confidence.medium
    ∧ Confidence.medium ≠ Confidence.low := by
  constructor
  · rfl
  · simp

/-- C2 (amended): whenever the live-orderbook path is not taken (mode other
than `LIVE_ORDERBOOK`, no client, or no market id) or the orderbook fetch
throws, `estimateCost` substitutes the heuristic spread (per-venue typical
spread halved times contracts) and the square-root size-scaling slippage
model, appends an assumption string explaining the fallback, never
propagates the fetch error (the result does not depend on the error), and
always returns a `TradingCost`; confidence is downgraded to `low` only on
the fetch-failure path, while the no-live-data path reports `medium`. -/
theorem c2_heuristic_fallback (sq : ℚ → ℚ) (schedule : PolymarketSchedule)
    (st : OracleState) (params : CostEstimateParams) :
    (∀ fetched : Except String OrderbookSnapshot,
      ¬(params.mode.getD st.defaultMode = CostEstimateMode.LIVE_ORDERBOOK
          ∧ st.hasClient = true ∧ params.market_id.isSome = true) →
      (estimateCost sq schedule st fetched params).spread_cost_usd =
        estimateSpreadCost params.venue params.size_usd (params.price.getD (1 / 2))
      ∧ (estimateCost sq schedule st fetched params).slippage_usd =
        estimateSlippage sq params.venue params.size_usd (params.price.getD (1 / 2))
      ∧ (estimateCost sq schedule st fetched params).confidence = Confidence.medium
      ∧ "Spread/slippage estimated (no live orderbook)" ∈
        (estimateCost sq schedule st fetched params).assumptions
      ∧ (estimateCost sq schedule st fetched params).orderbook_snapshot = none)
    ∧ (∀ msg : String,
      (params.mode.getD st.defaultMode = CostEstimateMode.LIVE_ORDERBOOK
          ∧ st.hasClient = true ∧ params.market_id.isSome = true) →
      (estimateCost sq schedule st (.error msg) params).spread_cost_usd =
        estimateSpreadCost params.venue params.size_usd (params.price.getD (1 / 2))
      ∧ (estimateCost sq schedule st (.error msg) params).slippage_usd =
        estimateSlippage sq params.venue params.size_usd (params.price.getD (1 / 2))
      ∧ (estimateCost sq schedule st (.error msg) params).confidence = Confidence.low
      ∧ "Orderbook fetch failed, using estimates" ∈
        (estimateCost sq schedule st (.error msg) params).assumptions
      ∧ (∀ msg' : String, estimateCost sq schedule st (.error msg') params =
          estimateCost sq schedule st (.error msg) params)) := by
  constructor
  · intro fetched h
    simp only [estimateCost, if_neg h]
    refine ⟨rfl, rfl, rfl, ?_, by trivial⟩
    simp
  · intro msg h
    simp only [estimateCost, if_pos h]
    refine ⟨rfl, rfl, rfl, ?_, by simp⟩
    simp

/-- C2 witness for `c2_heuristic_fallback`: once with no client configured
(medium confidence), once with a failing fetch on the live path (low
confidence). -/
theorem c2_heuristic_fallback_witness :
    (¬((some CostEstimateMode.PUBLIC_SCHEDULE).getD
          (OracleState.mk false CostEstimateMode.PUBLIC_SCHEDULE).defaultMode =
        CostEstimateMode.LIVE_ORDERBOOK
      ∧ (OracleState.mk false CostEstimateMode.PUBLIC_SCHEDULE).hasClient = true
      ∧ (Option.isSome (none : Option String)) = true))
    ∧ (estimateCost (fun _ => 0) sampleSchedule ⟨false, CostEstimateMode.PUBLIC_SCHEDULE⟩
        (.ok sampleOrderbook)
        ⟨⟨Venue.KALSHI, 1000, some OrderType.MARKET, some (1 / 2), none, none⟩, none,
          some CostEstimateMode.PUBLIC_SCHEDULE⟩).confidence = Confidence.medium
    ∧ ((some CostEstimateMode.LIVE_ORDERBOOK).getD
          (OracleState.mk true CostEstimateMode.LIVE_ORDERBOOK).defaultMode =
        CostEstimateMode.LIVE_ORDERBOOK
      ∧ (OracleState.mk true CostEstimateMode.LIVE_ORDERBOOK).hasClient = true
      ∧ (Option.isSome (some "KXTEST")) = true)
    ∧ (estimateCost (fun _ => 0) sampleSchedule ⟨true, CostEstimateMode.LIVE_ORDERBOOK⟩
        (.error "boom")
        ⟨⟨Venue.KALSHI, 1000, some OrderType.MARKET, some (1 / 2), some "KXTEST", none⟩,
          none, some CostEstimateMode.LIVE_ORDERBOOK⟩).confidence = Confidence.low := by
  have h1 : ¬((some CostEstimateMode.PUBLIC_SCHEDULE).getD
        (OracleState.mk false CostEstimateMode.PUBLIC_SCHEDULE).defaultMode =
      CostEstimateMode.LIVE_ORDERBOOK
    ∧ (OracleState.mk false CostEstimateMode.PUBLIC_SCHEDULE).hasClient = true
    ∧ (Option.isSome (none : Option String)) = true) := by simp
  have h2 : ((some CostEstimateMode.LIVE_ORDERBOOK).getD
        (OracleState.mk true CostEstimateMode.LIVE_ORDERBOOK).defaultMode =
      CostEstimateMode.LIVE_ORDERBOOK
    ∧ (OracleState.mk true CostEstimateMode.LIVE_ORDERBOOK).hasClient = true
    ∧ (Option.isSome (some "KXTEST")) = true) := by simp
  refine ⟨h1, ?_, h2, ?_⟩
  · exact ((c2_heuristic_fallback (fun _ => 0) sampleSchedule
      ⟨false, CostEstimateMode.PUBLIC_SCHEDULE⟩
      ⟨⟨Venue.KALSHI, 1000, some OrderType.MARKET, some (1 / 2), none, none⟩, none,
        some CostEstimateMode.PUBLIC_SCHEDULE⟩).1 (.ok sampleOrderbook) h1).2.2.1
  · exact ((c2_heuristic_fallback (fun _ => 0) sampleSchedule
      ⟨true, CostEstimateMode.LIVE_ORDERBOOK⟩
      ⟨⟨Venue.KALSHI, 1000, some OrderType.MARKET, some (1 / 2), some "KXTEST", none⟩,
        none, some CostEstimateMode.LIVE_ORDERBOOK⟩).2 "boom" h2).2.2.1

/-! ## C6 -/

theorem walkBook_wsum_add_remaining (ls : List OrderbookLevel) (r : ℚ)
    (hp : ∀ l ∈ ls, l.price ≠ 0) :
    (walkBook ls r).wsum + (walkBook ls r).remaining = r := by
  induction ls generalizing r with
  | nil => simp [walkBook]
  | cons l ls ih =>
    rw [walkBook]
    by_cases hr : r ≤ 0
    · rw [if_pos hr]
      simp
    · rw [if_neg hr]
      have hl : l.price ≠ 0 := hp l (List.mem_cons_self l ls)
      have hfill : l.price * (min r (l.price * l.size) / l.price) = min r (l.price * l.size) := by
        rw [← mul_div_assoc, mul_div_cancel_left₀ _ hl]
      have ihr := ih (r - min r (l.price * l.size))
        (fun x hx => hp x (List.mem_cons_of_mem l hx))
      simp only []
      rw [hfill]
      linarith [ihr]

theorem walkBook_remaining_nonneg (ls : List OrderbookLevel) (r : ℚ) (hr : 0 ≤ r) :
    0 ≤ (walkBook ls r).remaining := by
  induction ls generalizing r with
  | nil => simpa [walkBook] using hr
  | cons l ls ih =>
    rw [walkBook]
    by_cases h0 : r ≤ 0
    · rw [if_pos h0]
      exact hr
    · rw [if_neg h0]
      exact ih (r - min r (l.price * l.size)) (by simp [min_le_left])

theorem walkBook_nonneg (ls : List OrderbookLevel) (r : ℚ) (hr : 0 ≤ r)
    (hl : ∀ l ∈ ls, 0 < l.price ∧ 0 ≤ l.size) :
    0 ≤ (walkBook ls r).wsum ∧ 0 ≤ (walkBook ls r).contracts
    ∧ (0 < (walkBook ls r).wsum → 0 < (walkBook ls r).contracts) := by
  induction ls generalizing r with
  | nil => simp [walkBook]
  | cons l ls ih =>
    rw [walkBook]
    by_cases h0 : r ≤ 0
    · rw [if_pos h0]
      simp
    · rw [if_neg h0]
      have hlp := hl l (List.mem_cons_self l ls)
      have hfill : 0 ≤ min r (l.price * l.size) :=
        le_min (le_of_not_le h0) (mul_nonneg hlp.1.le hlp.2)
      have hfc : 0 ≤ min r (l.price * l.size) / l.price := div_nonneg hfill hlp.1.le
      have ihr := ih (r - min r (l.price * l.size)) (by simp [min_le_left])
        (fun x hx => hl x (List.mem_cons_of_mem l hx))
      refine ⟨add_nonneg (mul_nonneg hlp.1.le hfc) ihr.1,
        add_nonneg hfc ihr.2.1, ?_⟩
      intro hpos
      have hxp : 0 < l.price * (min r (l.price * l.size) / l.price)
          + (walkBook ls (r - min r (l.price * l.size))).wsum := hpos
      by_cases hfc0 : 0 < min r (l.price * l.size) / l.price
      · exact add_pos_of_pos_of_nonneg hfc0 ihr.2.1
      · have hz : min r (l.price * l.size) / l.price = 0 := le_antisymm (not_lt.mp hfc0) hfc
        have hws : 0 < (walkBook ls (r - min r (l.price * l.size))).wsum := by
          rw [hz, mul_zero, zero_add] at hxp
          exact hxp
        have hc := ihr.2.2 hws
        show 0 < min r (l.price * l.size) / l.price
          + (walkBook ls (r - min r (l.price * l.size))).contracts
        rw [hz, zero_add]
        exact hc

theorem sortedSide_mem_levels {ob : OrderbookSnapshot} {side : Side}
    {l : OrderbookLevel} (h : l ∈ sortedSide ob side) : l ∈ ob.levels := by
  cases side with
  | BUY =>
    have := (List.perm_insertionSort levelLE
      (ob.levels.filter (fun l => l.side == LevelSide.ASK))).mem_iff.mp h
    exact (List.mem_filter.mp this).1
  | SELL =>
    have := (List.perm_insertionSort levelGE
      (ob.levels.filter (fun l => l.side == LevelSide.BID))).mem_iff.mp h
    exact (List.mem_filter.mp this).1

/-- C6: `calculateSlippage` walks the relevant book side — `ASK` levels
sorted ascending for a `BUY`, `BID` levels sorted descending for a `SELL` —
starting from the best price; the whole requested notional is filled
(unfilled remainder at the worst level's price) so that
`effective_price × filled_contracts = size`, and the returned figures
satisfy `slippage_usd = |effective −best| × filled_contracts`,
`price_impact_pct = slippage_per_contract / best_price × 100` and
`spread_cost_usd = (best−mid resp. mid−best) × filled_contracts`, floored
at zero. -/
theorem c6_calculate_slippage (ob : OrderbookSnapshot) (sizeUsd : ℚ) (side : Side)
    (hlv : ∀ l ∈ ob.levels, 0 < l.price ∧ 0 ≤ l.size)
    (hne : sortedSide ob side ≠ []) (hsz : 0 < sizeUsd) :
    (side = Side.BUY →
      (sortedSide ob side).Sorted levelLE
      ∧ (sortedSide ob side).Perm (ob.levels.filter (fun l => l.side == LevelSide.ASK))
      ∧ ∀ l ∈ sortedSide ob side, bestSidePrice ob side ≤ l.price)
    ∧ (side = Side.SELL →
      (sortedSide ob side).Sorted levelGE
      ∧ (sortedSide ob side).Perm (ob.levels.filter (fun l => l.side == LevelSide.BID))
      ∧ ∀ l ∈ sortedSide ob side, l.price ≤ bestSidePrice ob side)
    ∧ (calculateSlippage ob sizeUsd side).effective_price * filledContracts ob sizeUsd side
        = sizeUsd
    ∧ (calculateSlippage ob sizeUsd side).slippage_usd =
      |(calculateSlippage ob sizeUsd side).effective_price - bestSidePrice ob side| *
        filledContracts ob sizeUsd side
    ∧ (calculateSlippage ob sizeUsd side).price_impact_pct =
      |(calculateSlippage ob sizeUsd side).effective_price - bestSidePrice ob side| /
        bestSidePrice ob side * 100
    ∧ (calculateSlippage ob sizeUsd side).spread_cost_usd =
      max 0 ((if side = Side.BUY then bestSidePrice ob side - ob.mid_price
        else ob.mid_price - bestSidePrice ob side) * filledContracts ob sizeUsd side) := by
  rcases hL : sortedSide ob side with _ | ⟨top, rest⟩
  · exact absurd hL hne
  -- facts about the levels on the walked side
  have hmem : ∀ l ∈ top :: rest, 0 < l.price ∧ 0 ≤ l.size := by
    intro l hl
    have hl' : l ∈ sortedSide ob side := hL ▸ hl
    exact hlv l (sortedSide_mem_levels hl')
  have hne0 : ∀ l ∈ top :: rest, l.price ≠ 0 := fun l hl => (hmem l hl).1.ne'
  have htop : 0 < top.price := (hmem top (List.mem_cons_self top rest)).1
  have hlast : (List.getLastD rest top) ∈ top :: rest := List.getLastD_mem_cons rest top
  have hlastp : 0 < (List.getLastD rest top).price := (hmem _ hlast).1
  -- the walk fills the whole notional
  have hw := walkBook_wsum_add_remaining (top :: rest) sizeUsd hne0
  have hrem := walkBook_remaining_nonneg (top :: rest) sizeUsd hsz.le
  have hnn := walkBook_nonneg (top :: rest) sizeUsd hsz.le hmem
  have hfill : (fillTotals (top :: rest) (List.getLastD rest top).price sizeUsd).1 = sizeUsd
      ∧ 0 < (fillTotals (top :: rest) (List.getLastD rest top).price sizeUsd).2 := by
    rw [fillTotals]
    by_cases hr : 0 < (walkBook (top :: rest) sizeUsd).remaining
    · rw [if_pos hr]
      constructor
      · simp only []
        rw [← mul_div_assoc, mul_div_cancel_left₀ _ hlastp.ne']
        linarith [hw]
      · exact add_pos_of_nonneg_of_pos hnn.2.1 (div_pos hr hlastp)
    · rw [if_neg hr]
      have hz : (walkBook (top :: rest) sizeUsd).remaining = 0 :=
        le_antisymm (not_lt.mp hr) hrem
      have hws : (walkBook (top :: rest) sizeUsd).wsum = sizeUsd := by linarith [hw]
      exact ⟨hws, hnn.2.2 (by rw [hws]; exact hsz)⟩
  -- the returned effective price times the filled contracts is the notional
  have hconserve :
      (calculateSlippage ob sizeUsd side).effective_price * filledContracts ob sizeUsd side
        = sizeUsd := by
    simp only [calculateSlippage, filledContracts, hL]
    rw [if_pos hfill.2]
    rw [div_mul_cancel₀ _ hfill.2.ne']
    exact hfill.1
  refine ⟨?_, ?_, hconserve, ?_, ?_, ?_⟩
  · intro hs
    subst hs
    have hsorted0 : List.Sorted levelLE (sortedSide ob Side.BUY) :=
      List.sorted_insertionSort levelLE _
    have hperm0 : (sortedSide ob Side.BUY).Perm
        (ob.levels.filter (fun l => l.side == LevelSide.ASK)) :=
      List.perm_insertionSort levelLE _
    rw [hL] at hsorted0 hperm0
    refine ⟨hsorted0, hperm0, ?_⟩
    intro l hl
    have hb : bestSidePrice ob Side.BUY = top.price := by
      rw [bestSidePrice.eq_def, hL]
    rw [hb]
    rcases List.mem_cons.mp hl with rfl | hl'
    · exact le_refl _
    · exact (List.sorted_cons.mp hsorted0).1 l hl'
  · intro hs
    subst hs
    have hsorted0 : List.Sorted levelGE (sortedSide ob Side.SELL) :=
      List.sorted_insertionSort levelGE _
    have hperm0 : (sortedSide ob Side.SELL).Perm
        (ob.levels.filter (fun l => l.side == LevelSide.BID)) :=
      List.perm_insertionSort levelGE _
    rw [hL] at hsorted0 hperm0
    refine ⟨hsorted0, hperm0, ?_⟩
    intro l hl
    have hb : bestSidePrice ob Side.SELL = top.price := by
      rw [bestSidePrice.eq_def, hL]
    rw [hb]
    rcases List.mem_cons.mp hl with rfl | hl'
    · exact le_refl _
    · exact (List.sorted_cons.mp hsorted0).1 l hl'
  · simp only [calculateSlippage, filledContracts, bestSidePrice, hL]
  · simp only [calculateSlippage, bestSidePrice, hL]
    rw [if_pos htop]
  · simp only [calculateSlippage, filledContracts, bestSidePrice, hL]

/-- C6 witness for `c6_calculate_slippage`: the sample one-bid/one-ask book,
a $1 BUY. -/
theorem c6_calculate_slippage_witness :
    (∀ l ∈ sampleOrderbook.levels, 0 < l.price ∧ 0 ≤ l.size)
    ∧ sortedSide sampleOrderbook Side.BUY ≠ []
    ∧ (0 : ℚ) < 1
    ∧ ((calculateSlippage sampleOrderbook 1 Side.BUY).effective_price *
        filledContracts sampleOrderbook 1 Side.BUY = 1) := by
  have hlv : ∀ l ∈ sampleOrderbook.levels, 0 < l.price ∧ 0 ≤ l.size := by
    intro l hl
    simp only [sampleOrderbook, List.mem_cons, List.mem_singleton] at hl
    rcases hl with rfl | hl
    · norm_num
    · rcases hl with rfl | hl
      · norm_num
      · simp at hl
  have hne : sortedSide sampleOrderbook Side.BUY ≠ [] := by
    simp [sortedSide, sampleOrderbook, List.insertionSort]
  exact ⟨hlv, hne, by norm_num,
    (c6_calculate_slippage sampleOrderbook 1 Side.BUY hlv hne (by norm_num)).2.2.1⟩

/-! ## C8 -/

theorem side_filter_append (bids asks : List OrderbookLevel)
    (hb : ∀ l ∈ bids, l.side = LevelSide.BID)
    (ha : ∀ l ∈ asks, l.side = LevelSide.ASK) :
    (bids ++ asks).filter (fun l => l.side == LevelSide.BID) = bids
    ∧ (bids ++ asks).filter (fun l => l.side == LevelSide.ASK) = asks := by
  constructor
  · rw [List.filter_append,
      List.filter_eq_self.mpr (fun a hA => by simp [hb a hA]),
      List.filter_eq_nil_iff.mpr (fun a hA => by simp [ha a hA]),
      List.append_nil]
  · rw [List.filter_append,
      List.filter_eq_nil_iff.mpr (fun a hA => by simp [hb a hA]),
      List.filter_eq_self.mpr (fun a hA => by simp [ha a hA]),
      List.nil_append]

theorem side_of_mem_sorted (r : OrderbookLevel → OrderbookLevel → Prop)
    [DecidableRel r] (f : ℚ × ℚ → OrderbookLevel) (s : LevelSide)
    (hf : ∀ pq, (f pq).side = s) (L : List (ℚ × ℚ)) :
    ∀ l ∈ List.insertionSort r (L.map f), l.side = s := by
  intro l hl
  have hm := (List.perm_insertionSort r (L.map f)).mem_iff.mp hl
  obtain ⟨pq, _, rfl⟩ := List.mem_map.mp hm
  exact hf pq

/-- C8 (amended): every snapshot produced by the normalizer has bid levels
sorted descending and ask levels ascending, `mid_price = (bid+ask)/2`,
`spread = ask − bid`, the zero-guarded `spread_bps`, defaults
`best_bid = 0` / `best_ask = 1` on an empty side, derives the Kalshi ask
side from the complementary price `1 − no_price`, and satisfies
`best_bid ≤ mid_price ≤ best_ask` whenever the book is not crossed
(`best_bid ≤ best_ask`) — but a crossed book violates the claimed
unconditional invariant (see the counterexample). -/
theorem c8_normalizer_invariants (ticker tokenId : String)
    (kresp : KalshiOrderbookData) (presp : PolymarketOrderbookData) :
    ((parseKalshiOrderbook ticker kresp).levels.filter
        (fun l => l.side == LevelSide.BID)).Sorted levelGE
    ∧ ((parseKalshiOrderbook ticker kresp).levels.filter
        (fun l => l.side == LevelSide.ASK)).Sorted levelLE
    ∧ (parseKalshiOrderbook ticker kresp).mid_price =
      ((parseKalshiOrderbook ticker kresp).best_bid
        + (parseKalshiOrderbook ticker kresp).best_ask) / 2
    ∧ (parseKalshiOrderbook ticker kresp).spread =
      (parseKalshiOrderbook ticker kresp).best_ask
        - (parseKalshiOrderbook ticker kresp).best_bid
    ∧ (parseKalshiOrderbook ticker kresp).spread_bps =
      (if 0 < (parseKalshiOrderbook ticker kresp).mid_price then
        (parseKalshiOrderbook ticker kresp).spread
          / (parseKalshiOrderbook ticker kresp).mid_price * 10000
      else 0)
    ∧ (kresp.yes_dollars = [] → (parseKalshiOrderbook ticker kresp).best_bid = 0)
    ∧ (kresp.no_dollars = [] → (parseKalshiOrderbook ticker kresp).best_ask = 1)
    ∧ (∀ l ∈ (parseKalshiOrderbook ticker kresp).levels, l.side = LevelSide.ASK →
      ∃ pq ∈ kresp.no_dollars, l.price = 1 - pq.1 ∧ l.size = pq.2)
    ∧ ((parseKalshiOrderbook ticker kresp).best_bid ≤
        (parseKalshiOrderbook ticker kresp).best_ask →
      (parseKalshiOrderbook ticker kresp).best_bid ≤
        (parseKalshiOrderbook ticker kresp).mid_price
      ∧ (parseKalshiOrderbook ticker kresp).mid_price ≤
        (parseKalshiOrderbook ticker kresp).best_ask)
    ∧ ((parsePolymarketOrderbook tokenId presp).levels.filter
        (fun l => l.side == LevelSide.BID)).Sorted levelGE
    ∧ ((parsePolymarketOrderbook tokenId presp).levels.filter
        (fun l => l.side == LevelSide.ASK)).Sorted levelLE
    ∧ (parsePolymarketOrderbook tokenId presp).mid_price =
      ((parsePolymarketOrderbook tokenId presp).best_bid
        + (parsePolymarketOrderbook tokenId presp).best_ask) / 2
    ∧ (parsePolymarketOrderbook tokenId presp).spread =
      (parsePolymarketOrderbook tokenId presp).best_ask
        - (parsePolymarketOrderbook tokenId presp).best_bid
    ∧ (parsePolymarketOrderbook tokenId presp).spread_bps =
      (if 0 < (parsePolymarketOrderbook tokenId presp).mid_price then
        (parsePolymarketOrderbook tokenId presp).spread
          / (parsePolymarketOrderbook tokenId presp).mid_price * 10000
      else 0)
    ∧ (presp.bids = [] → (parsePolymarketOrderbook tokenId presp).best_bid = 0)
    ∧ (presp.asks = [] → (parsePolymarketOrderbook tokenId presp).best_ask = 1)
    ∧ ((parsePolymarketOrderbook tokenId presp).best_bid ≤
        (parsePolymarketOrderbook tokenId presp).best_ask →
      (parsePolymarketOrderbook tokenId presp).best_bid ≤
        (parsePolymarketOrderbook tokenId presp).mid_price
      ∧ (parsePolymarketOrderbook tokenId presp).mid_price ≤
        (parsePolymarketOrderbook tokenId presp).best_ask) := by
  have hKb := side_of_mem_sorted levelGE
    (fun pq => ⟨pq.1, pq.2, LevelSide.BID⟩) LevelSide.BID (fun _ => rfl) kresp.yes_dollars
  have hKa := side_of_mem_sorted levelLE
    (fun pq => ⟨1 - pq.1, pq.2, LevelSide.ASK⟩) LevelSide.ASK (fun _ => rfl) kresp.no_dollars
  have hKf := side_filter_append _ _ hKb hKa
  have hKlv : (parseKalshiOrderbook ticker kresp).levels =
      List.insertionSort levelGE
        (kresp.yes_dollars.map (fun pq => ⟨pq.1, pq.2, LevelSide.BID⟩))
      ++ List.insertionSort levelLE
        (kresp.no_dollars.map (fun pq => ⟨1 - pq.1, pq.2, LevelSide.ASK⟩)) := rfl
  have hPb := side_of_mem_sorted levelGE
    (fun pq => ⟨pq.1, pq.2, LevelSide.BID⟩) LevelSide.BID (fun _ => rfl) presp.bids
  have hPa := side_of_mem_sorted levelLE
    (fun pq => ⟨pq.1, pq.2, LevelSide.ASK⟩) LevelSide.ASK (fun _ => rfl) presp.asks
  have hPf := side_filter_append _ _ hPb hPa
  have hPlv : (parsePolymarketOrderbook tokenId presp).levels =
      List.insertionSort levelGE
        (presp.bids.map (fun pq => ⟨pq.1, pq.2, LevelSide.BID⟩))
      ++ List.insertionSort levelLE
        (presp.asks.map (fun pq => ⟨pq.1, pq.2, LevelSide.ASK⟩)) := rfl
  have hKm : (parseKalshiOrderbook ticker kresp).mid_price =
      ((parseKalshiOrderbook ticker kresp).best_bid
        + (parseKalshiOrderbook ticker kresp).best_ask) / 2 := rfl
  have hPm : (parsePolymarketOrderbook tokenId presp).mid_price =
      ((parsePolymarketOrderbook tokenId presp).best_bid
        + (parsePolymarketOrderbook tokenId presp).best_ask) / 2 := rfl
  refine ⟨?_, ?_, hKm, rfl, rfl, ?_, ?_, ?_, ?_, ?_, ?_, hPm, rfl, rfl, ?_, ?_, ?_⟩
  · rw [hKlv, hKf.1]
    exact List.sorted_insertionSort levelGE _
  · rw [hKlv, hKf.2]
    exact List.sorted_insertionSort levelLE _
  · intro h
    have hbb : (parseKalshiOrderbook ticker kresp).best_bid =
        ((List.insertionSort levelGE
          (kresp.yes_dollars.map (fun pq => ⟨pq.1, pq.2, LevelSide.BID⟩))).head?.map
            OrderbookLevel.price).getD 0 := rfl
    rw [hbb, h]
    rfl
  · intro h
    have hba : (parseKalshiOrderbook ticker kresp).best_ask =
        ((List.insertionSort levelLE
          (kresp.no_dollars.map (fun pq => ⟨1 - pq.1, pq.2, LevelSide.ASK⟩))).head?.map
            OrderbookLevel.price).getD 1 := rfl
    rw [hba, h]
    rfl
  · intro l hl hside
    rw [hKlv] at hl
    rcases List.mem_append.mp hl with h1 | h2
    · have hbid := hKb l h1
      rw [hbid] at hside
      exact absurd hside (by simp)
    · have hm := (List.perm_insertionSort levelLE _).mem_iff.mp h2
      obtain ⟨pq, hpq, rfl⟩ := List.mem_map.mp hm
      exact ⟨pq, hpq, rfl, rfl⟩
  · intro hle
    rw [hKm]
    constructor <;> linarith
  · rw [hPlv, hPf.1]
    exact List.sorted_insertionSort levelGE _
  · rw [hPlv, hPf.2]
    exact List.sorted_insertionSort levelLE _
  · intro h
    have hbb : (parsePolymarketOrderbook tokenId presp).best_bid =
        ((List.insertionSort levelGE
          (presp.bids.map (fun pq => ⟨pq.1, pq.2, LevelSide.BID⟩))).head?.map
            OrderbookLevel.price).getD 0 := rfl
    rw [hbb, h]
    rfl
  · intro h
    have hba : (parsePolymarketOrderbook tokenId presp).best_ask =
        ((List.insertionSort levelLE
          (presp.asks.map (fun pq => ⟨pq.1, pq.2, LevelSide.ASK⟩))).head?.map
            OrderbookLevel.price).getD 1 := rfl
    rw [hba, h]
    rfl
  · intro hle
    rw [hPm]
    constructor <;> linarith

/-- C8 (counterexample): a crossed Kalshi book — a yes bid at 0.60 together
with a no bid at 0.60 (hence a derived yes ask at 0.40) — has both sides
non-empty yet `best_bid ≤ mid_price` fails, refuting the unconditional
`best_bid ≤ mid_price ≤ best_ask` invariant. -/
theorem c8_crossed_book_counterexample :
    (parseKalshiOrderbook "T" ⟨[(3 / 5, 10)], [(3 / 5, 10)]⟩).best_bid = 3 / 5
    ∧ (parseKalshiOrderbook "T" ⟨[(3 / 5, 10)], [(3 / 5, 10)]⟩).best_ask = 2 / 5
    ∧ (parseKalshiOrderbook "T" ⟨[(3 / 5, 10)], [(3 / 5, 10)]⟩).mid_price = 1 / 2
    ∧ (parseKalshiOrderbook "T" ⟨[(3 / 5, 10)], [(3 / 5, 10)]⟩).levels.filter
        (fun l => l.side == LevelSide.BID) ≠ []
    ∧ (parseKalshiOrderbook "T" ⟨[(3 / 5, 10)], [(3 / 5, 10)]⟩).levels.filter
        (fun l => l.side == LevelSide.ASK) ≠ []
    ∧ ¬((parseKalshiOrderbook "T" ⟨[(3 / 5, 10)], [(3 / 5, 10)]⟩).best_bid ≤
        (parseKalshiOrderbook "T" ⟨[(3 / 5, 10)], [(3 / 5, 10)]⟩).mid_price) := by
  refine ⟨rfl, by norm_num [parseKalshiOrderbook, List.insertionSort, List.orderedInsert],
    ?_, ?_, ?_, ?_⟩
  · show ((3 : ℚ) / 5 + (1 - 3 / 5)) / 2 = 1 / 2
    norm_num
  · simp [parseKalshiOrderbook, List.insertionSort, List.orderedInsert]
  · simp [parseKalshiOrderbook, List.insertionSort, List.orderedInsert]
  · show ¬((3 : ℚ) / 5 ≤ (3 / 5 + (1 - 3 / 5)) / 2)
    norm_num

end ReplayOracle
